import Mathlib

/-!
# Verification of the waveform-image generation pipeline

Shallow embedding of `src/server/workers/jobs/generateWaveform.ts`:
amplitude extraction, waveform rasterization, PNG encoding (CRC-32,
chunk framing) and the orchestrating job `run`.

Conventions:
* byte sequences are `List Nat` with entries `< 256`;
* JavaScript numbers holding 32-bit values (CRC state, table entries)
  are `Nat` kept below `2 ^ 32`: the unsigned representative of the
  JS signed-int32 bit pattern (`& 0xff`, `>>> 8` and `^` agree on
  representatives, and `x >>> n` on the unsigned representative is
  `x / 2 ^ n`);
* audio sample values (`Int16Array` entries) are `Int`;
* floating-point amplitudes are modelled as `ℚ`: the operations the
  claims depend on (division by the power of two 32768, products with
  small integers, comparisons and `Math.floor`) are exact in IEEE
  doubles on the relevant ranges, so `ℚ` is a faithful model;
* the external deflate compressor and the `Math.random` stream are
  black-box parameters;
* the external collaborators of the job (`downloadFromR2`, the ffmpeg
  decode, `uploadToR2`, `updatePostWaveformUrl`, `rm`) are modelled by
  an oracle record `JobEnv` fixing each call's outcome, and the job is
  a function from the oracle and its input to a result plus the list
  of externally visible steps it performed, in order.
-/

namespace Waveform

/-! ## Configuration constants (lines 9–12) -/

def WAVEFORM_WIDTH : Nat := 300
def WAVEFORM_HEIGHT : Nat := 60
def WAVEFORM_SAMPLES : Nat := 150

/-- The fixed bar color `WAVEFORM_COLOR = { r: 233, g: 69, b: 96 }`. -/
def WAVEFORM_COLOR : Nat × Nat × Nat := (233, 69, 96)

/-! ## CRC-32 (lines 206–227) -/

/-- One iteration of the inner loop of the table construction:
`c = (c & 1) ? 0xedb88320 ^ (c >>> 1) : (c >>> 1)`. -/
def crcStep (c : Nat) : Nat :=
  if c % 2 = 1 then 0xedb88320 ^^^ (c / 2) else c / 2

/-- Entry `n` of the CRC lookup table: the inner
`for (k = 0; k < 8; k++)` loop applied to the initial value `n`. -/
def crcTableEntry (n : Nat) : Nat := crcStep^[8] n

/-- The 256-entry lookup table built by the outer
`for (n = 0; n < 256; n++)` loop. -/
def crcTable : List Nat := (List.range 256).map crcTableEntry

/-- The per-byte update of the main loop:
`crc = table[(crc ^ data[i]) & 0xff] ^ (crc >>> 8)`. -/
def crcByteStep (crc b : Nat) : Nat :=
  crcTable.getD ((crc ^^^ b) % 256) 0 ^^^ (crc / 256)

/-- Function `crc32(data)`: fold the byte update over the data starting from
`0xffffffff`, then `(crc ^ 0xffffffff) >>> 0`. -/
def crc32 (data : List Nat) : Nat :=
  data.foldl crcByteStep 0xffffffff ^^^ 0xffffffff

/-- Modelled from the spec: the standard reflected CRC-32
(polynomial `0xEDB88320`, initial value `0xFFFFFFFF`, final XOR
`0xFFFFFFFF`) in its rolled, table-free form: each byte is XORed into
the low bits of the state and eight polynomial shift steps are
applied. -/
def crc32_standard (data : List Nat) : Nat :=
  data.foldl (fun crc b => crcStep^[8] (crc ^^^ b)) 0xffffffff ^^^ 0xffffffff

/-! ## Amplitude extraction (lines 17–100) -/

/-- The peak loop of lines 73–77 over a list of already-fetched sample
values: `value = Math.abs(samples[j]) / 32768; if (value > peak) peak =
value`. -/
def peakFold (values : List Int) : ℚ :=
  values.foldl
    (fun peak s => if |(s : ℚ)| / 32768 > peak then |(s : ℚ)| / 32768 else peak) 0

/-- The bucket loop of lines 64–80: `samplesPerPoint =
floor(samples.length / numSamples)`; bucket `i` covers indices
`[i * samplesPerPoint, min(i * samplesPerPoint + samplesPerPoint,
samples.length))`; out-of-range reads (which never happen, see the
theorems) default to `0`. -/
def bucketPeaks (samples : List Int) (numSamples : Nat) : List ℚ :=
  let samplesPerPoint := samples.length / numSamples
  (List.range numSamples).map fun i =>
    let start := i * samplesPerPoint
    let stop := min (start + samplesPerPoint) samples.length
    peakFold ((List.range (stop - start)).map fun k => samples.getD (start + k) 0)

/-- Lines 82–84: `maxAmplitude = Math.max(...amplitudes, 0.01)` and
`amplitudes.map((a) => a / maxAmplitude)`. -/
def normalizeAmplitudes (amplitudes : List ℚ) : List ℚ :=
  let maxAmplitude := amplitudes.foldl max (1 / 100)
  amplitudes.map fun a => a / maxAmplitude

/-- Lines 94–100: `0.3 + Math.random() * 0.4`, one draw per sample;
`rand i` is the `i`-th value produced by the `Math.random` stream. -/
def generateFallbackAmplitudes (rand : Nat → ℚ) (numSamples : Nat) : List ℚ :=
  (List.range numSamples).map fun i => 3 / 10 + rand i * (4 / 10)

/-- The `close` handler of lines 46–85. The ffmpeg interaction is
abstracted as its outcome: `Except.error` for a process error or a
non-zero exit code (lines 47–50 and 87), `Except.ok samples` for the
decoded `Int16Array` contents. On zero decoded samples the promise
resolves with fallback amplitudes (lines 59–62); otherwise with the
normalized bucket peaks (lines 64–84). -/
def extractAmplitudesFromRaw (rand : Nat → ℚ)
    (decodeOutcome : Except String (List Int)) (numSamples : Nat) :
    Except String (List ℚ) :=
  match decodeOutcome with
  | Except.error e => Except.error e
  | Except.ok samples =>
    if samples.length = 0 then Except.ok (generateFallbackAmplitudes rand numSamples)
    else Except.ok (normalizeAmplitudes (bucketPeaks samples numSamples))

/-! ## Rasterization (lines 105–142) -/

/-- Line 110: `barWidth = Math.max(1, Math.floor(width /
amplitudes.length) - 1)` (for a positive length the JS float division
plus `Math.floor` is Nat division, and the `- 1` followed by
`Math.max(1, ·)` agrees with truncated Nat subtraction followed by
`max 1`). -/
def barWidthOf (width n : Nat) : Nat := max 1 (width / n - 1)

/-- Line 112: `actualWidth = amplitudes.length * (barWidth + gap)` with
`gap = 1`. -/
def actualWidthOf (width n : Nat) : Nat := n * (barWidthOf width n + 1)

/-- Line 122: `barHeight = Math.max(2, Math.floor(amplitude * (height -
4)))`, as an integer (negative intermediate values occur for `height <
4` exactly as in JS). -/
def barHeightOf (a : ℚ) (height : Nat) : Int :=
  max 2 (Rat.floor (a * ((height : ℚ) - 4)))

/-- Line 123: `halfHeight = Math.floor(barHeight / 2)`; `barHeight ≥ 2`
so this is Nat division of the (nonnegative) bar height. -/
def halfHeightOf (a : ℚ) (height : Nat) : Nat :=
  (barHeightOf a height).toNat / 2

/-- The base pixel index of every 4-byte pixel write performed by the
loops of lines 119–138, in execution order: for each bar `i`, for `dy`
from `-halfHeight` to `halfHeight`, if `0 ≤ y < height` (line 128), for
`bx < barWidth`, the write at `pixelIndex = (y * actualWidth + x + bx)
* 4` (line 130). -/
def barWrites (amps : List ℚ) (width height : Nat) : List Nat :=
  let n := amps.length
  let bw := barWidthOf width n
  let aw := n * (bw + 1)
  (List.range n).flatMap fun i =>
    let x := i * (bw + 1)
    let a := amps.getD i 0
    let half := halfHeightOf a height
    ((List.range (2 * half + 1)).map fun t => (t : Int) - (half : Int)).flatMap fun dy =>
      let y : Int := ((height / 2 : Nat) : Int) + dy
      if 0 ≤ y ∧ y < (height : Int) then
        (List.range bw).map fun bx => (y.toNat * aw + x + bx) * 4
      else []

/-- Lines 115–138: the RGBA buffer `Buffer.alloc(actualWidth * height *
4, 0)` after all bar writes; each base index receives the fixed color
and alpha 255 (`List.set`, like a JS `Buffer` write, ignores
out-of-range indices — the theorems show none occur). -/
def renderPixels (amps : List ℚ) (width height : Nat) : List Nat :=
  let aw := actualWidthOf width amps.length
  (barWrites amps width height).foldl
    (fun buf pi =>
      ((((buf.set pi 233).set (pi + 1) 69).set (pi + 2) 96).set (pi + 3) 255))
    (List.replicate (aw * height * 4) 0)

/-! ## PNG encoding (lines 147–201) -/

/-- Node's `buf.writeUInt32BE(v, off)`: the four bytes `v >>> 24`,
`(v >>> 16) & 0xff`, `(v >>> 8) & 0xff`, `v & 0xff` written at
`off .. off+3`. -/
def bufWriteUInt32BE (buf : List Nat) (v off : Nat) : List Nat :=
  ((((buf.set off (v / 2 ^ 24 % 256)).set (off + 1) (v / 2 ^ 16 % 256)).set
      (off + 2) (v / 2 ^ 8 % 256)).set (off + 3) (v % 256))

/-- Lines 151–153: the 8-byte PNG signature. -/
def pngSignature : List Nat := [0x89, 0x50, 0x4e, 0x47, 0x0d, 0x0a, 0x1a, 0x0a]

/-- Lines 156–163: the 13-byte IHDR payload, built by writing into
`Buffer.alloc(13)`. -/
def ihdrData (width height : Nat) : List Nat :=
  (((((bufWriteUInt32BE (bufWriteUInt32BE (List.replicate 13 0) width 0)
      height 4).set 8 8).set 9 6).set 10 0).set 11 0).set 12 0

/-- The byte content that `pixels.copy(rawData, rowOffset + 1, y *
rowSize, (y + 1) * rowSize)` (line 174) leaves in the row region of the
zero-initialized `rawData` buffer: the available source bytes, then the
untouched zero fill if the source range runs past the end of
`pixels`. -/
def pngRow (pixels : List Nat) (width y : Nat) : List Nat :=
  let row := (pixels.drop (y * (width * 4))).take (width * 4)
  row ++ List.replicate (width * 4 - row.length) 0

/-- Lines 168–175: the filtered scanline buffer `rawData` of size
`height * (1 + rowSize)`; the per-row writes at offsets `y * (1 +
rowSize)` are disjoint and tile the buffer, so the imperative fill
equals the concatenation of `0` (filter type none, line 173) followed
by the row bytes, for each row. -/
def pngRawData (pixels : List Nat) (width height : Nat) : List Nat :=
  (List.range height).flatMap fun y => 0 :: pngRow pixels width y

/-- ASCII bytes of the chunk type string "IHDR". -/
def typeIHDR : List Nat := [73, 72, 68, 82]

/-- ASCII bytes of the chunk type string "IDAT". -/
def typeIDAT : List Nat := [73, 68, 65, 84]

/-- ASCII bytes of the chunk type string "IEND". -/
def typeIEND : List Nat := [73, 69, 78, 68]

/-- Lines 189–201: `createPngChunk(type, data)`; the chunk type is
already its ASCII byte sequence (`Buffer.from(type, "ascii")`). -/
def createPngChunk (typeBytes data : List Nat) : List Nat :=
  let lengthBuf := bufWriteUInt32BE (List.replicate 4 0) data.length 0
  let crcInput := typeBytes ++ data
  let crc := crc32 crcInput
  let crcBuf := bufWriteUInt32BE (List.replicate 4 0) crc 0
  lengthBuf ++ typeBytes ++ data ++ crcBuf

/-- Lines 147–184: `encodePng(pixels, width, height)`; `deflateSync(·,
{ level: 9 })` is the black-box compressor parameter `deflate`. -/
def encodePng (deflate : List Nat → List Nat) (pixels : List Nat)
    (width height : Nat) : List Nat :=
  pngSignature ++
    createPngChunk typeIHDR (ihdrData width height) ++
    createPngChunk typeIDAT (deflate (pngRawData pixels width height)) ++
    createPngChunk typeIEND []

/-- Lines 105–142: `renderWaveformToPng` renders the bars and encodes
the buffer with `encodePng(pixels, actualWidth, height)` (line 141 —
note: `actualWidth`, not `width`). -/
def renderWaveformToPng (deflate : List Nat → List Nat) (amps : List ℚ)
    (width height : Nat) : List Nat :=
  encodePng deflate (renderPixels amps width height)
    (actualWidthOf width amps.length) height

/-! ## Spec-side definitions for the layout claims -/

/-- Modelled from the spec: "4-byte big-endian payload length"
framing field — the big-endian base-256 digits of a 32-bit value. -/
def be4 (v : Nat) : List Nat :=
  [v / 2 ^ 24 % 256, v / 2 ^ 16 % 256, v / 2 ^ 8 % 256, v % 256]

/-- Modelled from the spec: "Chunk framing: length(4B BE) + type(4
ASCII bytes) + payload + CRC32(4B BE) over type+payload". -/
def chunkSpec (typeBytes payload : List Nat) : List Nat :=
  be4 payload.length ++ typeBytes ++ payload ++ be4 (crc32 (typeBytes ++ payload))

/-- Modelled from the spec (claim C2): partition into `N` buckets of
size `floor(totalSamples / N)` with the trailing remainder samples
included in the last bucket; each bucket's value is the peak of
`|sample| / 32768` over the bucket. -/
def bucketPeaksSpec (samples : List Int) (numSamples : Nat) : List ℚ :=
  let samplesPerPoint := samples.length / numSamples
  (List.range numSamples).map fun i =>
    let start := i * samplesPerPoint
    let stop := if i = numSamples - 1 then samples.length
      else start + samplesPerPoint
    peakFold ((List.range (stop - start)).map fun k => samples.getD (start + k) 0)

/-- The amended bucket description: bucket `i` is the contiguous slice
of `samplesPerPoint` samples starting at `i * samplesPerPoint`;
trailing remainder samples past `N * samplesPerPoint` belong to no
bucket. -/
def bucketPeaksDropSpec (samples : List Int) (numSamples : Nat) : List ℚ :=
  let samplesPerPoint := samples.length / numSamples
  (List.range numSamples).map fun i =>
    peakFold ((samples.drop (i * samplesPerPoint)).take samplesPerPoint)

/-! ## The job orchestrator (lines 229–292) -/

/-- Job data `GenerateWaveformData` (from the worker job type declarations):
`postId: number`, `audioKey: string`; the `job.data as
GenerateWaveformData` cast means either field may also be absent
(`undefined`), modelled by `none`. -/
structure GenerateWaveformData where
  postId : Option Int
  audioKey : Option String
deriving DecidableEq

/-- JS falsiness of `data.postId` (line 233): `undefined` or `0`. -/
def falsyPostId : Option Int → Bool
  | none => true
  | some n => n == 0

/-- JS falsiness of `data.audioKey` (line 233): `undefined` or the
empty string. -/
def falsyAudioKey : Option String → Bool
  | none => true
  | some s => s == ""

/-- The externally visible steps of one job invocation, in order. -/
inductive JobStep where
  /-- The log call `log.error("Invalid job data: ...")` (line 234). -/
  | logError
  /-- The call `downloadFromR2(log, data.audioKey)` (line 247). -/
  | download (key : String)
  /-- The call `writeFile(audioPath, ...)` (line 250): the temp file now exists. -/
  | writeTemp
  /-- The log call `log.warn("Failed to extract amplitudes, using fallback", ...)`
  (line 258). -/
  | logWarnFallback
  /-- The call `uploadToR2(log, waveformKey, pngBuffer, "image/png")`
  (lines 272–277). -/
  | upload (key : String) (bytes : List Nat)
  /-- The call `updatePostWaveformUrl(serverApp.db, data.postId, waveformUrl)`
  (line 281). -/
  | persist (postId : Int) (url : String)
  /-- The call `rm(audioPath, force)` with `force: true`, attempted in the `finally`
  block (line 287). -/
  | cleanup
deriving DecidableEq

/-- Oracle for the job's external collaborators: the outcome each call
would have if reached. `cleanupFails` says whether the `rm` call would
throw; the `try { ... } catch {}` around it (lines 286–290) swallows
that error, so `run` never reads this field — which is the embedded
form of "cleanup errors are swallowed". -/
structure JobEnv where
  downloadResult : Except String (List Nat)
  decodeOutcome : Except String (List Int)
  rand : Nat → ℚ
  deflate : List Nat → List Nat
  uploadResult : Except String String
  persistResult : Except String Unit
  cleanupFails : Bool

/-- Lines 229–292: the `run` job. Returns the job's outcome (a thrown
error propagates to the scheduler as `Except.error`) and the ordered
list of externally visible steps. The temp path and `Date.now()` do
not affect any claim and are elided from the step arguments. -/
def run (env : JobEnv) (data : GenerateWaveformData) :
    Except String Unit × List JobStep :=
  if falsyPostId data.postId || falsyAudioKey data.audioKey then
    (Except.ok (), [JobStep.logError])
  else
    let postId := data.postId.getD 0
    let audioKey := data.audioKey.getD ("")
    let waveformKey := "waveforms/" ++ toString postId ++ ".png"
    match env.downloadResult with
    | Except.error e => (Except.error e, [JobStep.download audioKey, JobStep.cleanup])
    | Except.ok _audioBuffer =>
      let ext :=
        match extractAmplitudesFromRaw env.rand env.decodeOutcome WAVEFORM_SAMPLES with
        | Except.ok a => (a, ([] : List JobStep))
        | Except.error _ =>
          (generateFallbackAmplitudes env.rand WAVEFORM_SAMPLES, [JobStep.logWarnFallback])
      let amplitudes := ext.1
      let pngBuffer :=
        renderWaveformToPng env.deflate amplitudes WAVEFORM_WIDTH WAVEFORM_HEIGHT
      let prefixSteps := [JobStep.download audioKey, JobStep.writeTemp] ++ ext.2
      match env.uploadResult with
      | Except.error e =>
        (Except.error e, prefixSteps ++ [JobStep.upload waveformKey pngBuffer, JobStep.cleanup])
      | Except.ok waveformUrl =>
        match env.persistResult with
        | Except.error e =>
          (Except.error e, prefixSteps ++
            [JobStep.upload waveformKey pngBuffer,
             JobStep.persist postId waveformUrl, JobStep.cleanup])
        | Except.ok _ =>
          (Except.ok (), prefixSteps ++
            [JobStep.upload waveformKey pngBuffer,
             JobStep.persist postId waveformUrl, JobStep.cleanup])

/-- The pixel grid the C6 scenario should produce: bar `i` occupies
columns `[3 * i, 3 * i + 2)` with a 1-pixel gap column after it, and
rows within `halfHeight_i` of the center row 5 (`halfHeight = [3, 1,
1]` for bar heights `[6, 3, 2]`); bar pixels are the fixed color with
alpha 255, all other bytes zero, row-major. -/
def c6expected : List Nat :=
  (List.range 10).flatMap fun yy =>
    (List.range 9).flatMap fun xx =>
      if (xx < 2 ∧ 5 - 3 ≤ yy ∧ yy ≤ 5 + 3) ∨
         (3 ≤ xx ∧ xx < 5 ∧ 5 - 1 ≤ yy ∧ yy ≤ 5 + 1) ∨
         (6 ≤ xx ∧ xx < 8 ∧ 5 - 1 ≤ yy ∧ yy ≤ 5 + 1)
      then [233, 69, 96, 255] else [0, 0, 0, 0]

/-- Concrete oracle for the C7 witness: download succeeds, the decode
process fails, upload and persistence succeed. -/
def envC7 : JobEnv :=
  { downloadResult := Except.ok []
    decodeOutcome := Except.error ("decode failed")
    rand := fun _ => 1 / 2
    deflate := fun l => l
    uploadResult := Except.ok ("https://cdn.example/waveforms/7.png")
    persistResult := Except.ok ()
    cleanupFails := false }

/-- Concrete valid job data for the C7 witness. -/
def dataC7 : GenerateWaveformData := { postId := some 7, audioKey := some ("audio/7.dat") }

/-- Concrete oracle for the C8 witness. -/
def envC8 : JobEnv :=
  { downloadResult := Except.ok []
    decodeOutcome := Except.ok []
    rand := fun _ => 1 / 2
    deflate := fun l => l
    uploadResult := Except.ok ("https://cdn.example/waveforms/9.png")
    persistResult := Except.ok ()
    cleanupFails := false }

/-- Concrete job data with an empty-string asset key for the C8
witness. -/
def dataC8 : GenerateWaveformData := { postId := some 9, audioKey := some ("") }

/-- Concrete oracle for the C9 witness: the upload fails and the
cleanup call would itself throw. -/
def envC9 : JobEnv :=
  { downloadResult := Except.ok [1, 2]
    decodeOutcome := Except.ok []
    rand := fun _ => 1 / 2
    deflate := fun l => l
    uploadResult := Except.error ("upload failed")
    persistResult := Except.ok ()
    cleanupFails := true }

/-- Concrete valid job data for the C9 witness. -/
def dataC9 : GenerateWaveformData := { postId := some 3, audioKey := some ("audio/3.dat") }

/-! ## CRC-32: the table-driven loop computes the standard reflected
CRC-32 -/

theorem xor_shuffle (P a b : Nat) :
    (P ^^^ a) ^^^ (P ^^^ b) = a ^^^ b := by
  rw [Nat.xor_assoc, ← Nat.xor_assoc a P b, Nat.xor_comm a P, Nat.xor_assoc P a b,
    ← Nat.xor_assoc P P _, Nat.xor_self, Nat.zero_xor]

/-- The polynomial shift step is linear over GF(2). -/
theorem crcStep_xor (x y : Nat) : crcStep (x ^^^ y) = crcStep x ^^^ crcStep y := by
  have hxy : (x ^^^ y) % 2 = (x + y) % 2 := Nat.xor_mod_two_eq
  have hdiv : (x ^^^ y) / 2 = x / 2 ^^^ y / 2 := Nat.xor_div_two
  unfold crcStep
  rw [hxy, hdiv]
  rcases Nat.mod_two_eq_zero_or_one x with hx | hx <;>
    rcases Nat.mod_two_eq_zero_or_one y with hy | hy
  · rw [if_neg (by omega), if_neg (by omega), if_neg (by omega)]
  · rw [if_pos (by omega), if_neg (by omega), if_pos (by omega)]
    conv_rhs => rw [← Nat.xor_assoc, Nat.xor_comm (x / 2) 0xedb88320]
    rw [Nat.xor_assoc]
  · rw [if_pos (by omega), if_pos (by omega), if_neg (by omega), Nat.xor_assoc]
  · rw [if_neg (by omega), if_pos (by omega), if_pos (by omega), xor_shuffle]

theorem crcStep_two_mul (m : Nat) : crcStep (2 * m) = m := by
  simp [crcStep, Nat.mul_mod_right, Nat.mul_div_cancel_left m (by norm_num : 0 < 2)]

theorem crcStep_iter_xor (k x y : Nat) :
    crcStep^[k] (x ^^^ y) = crcStep^[k] x ^^^ crcStep^[k] y := by
  induction k generalizing x y with
  | zero => rfl
  | succ k ih =>
    rw [Function.iterate_succ_apply, Function.iterate_succ_apply,
      Function.iterate_succ_apply, crcStep_xor, ih]

theorem crcStep_iter_pow_mul (k m : Nat) : crcStep^[k] (2 ^ k * m) = m := by
  induction k generalizing m with
  | zero => simp
  | succ k ih =>
    have h : 2 ^ (k + 1) * m = 2 * (2 ^ k * m) := by ring
    rw [h, Function.iterate_succ_apply, crcStep_two_mul, ih]

/-- XOR of bit-disjoint parts is addition. -/
theorem xor_disjoint_eq_add {i a b : Nat} (hb : b < 2 ^ i) :
    (2 ^ i * a) ^^^ b = 2 ^ i * a + b := by
  rw [Nat.mul_add_lt_is_or hb]
  apply Nat.eq_of_testBit_eq
  intro j
  rcases Nat.lt_or_ge j i with hj | hj
  · have h1 : (2 ^ i * a).testBit j = false := by
      rw [Nat.testBit_mul_pow_two]
      simp [Nat.not_le_of_lt hj]
    simp [Nat.testBit_xor, Nat.testBit_or, h1]
  · have h1 : b.testBit j = false :=
      Nat.testBit_lt_two_pow (lt_of_lt_of_le hb (Nat.pow_le_pow_right (by norm_num) hj))
    simp [Nat.testBit_xor, Nat.testBit_or, h1]

/-- Eight shift steps of a state split into its low byte and the rest. -/
theorem crcStep_iter_eight (x : Nat) :
    crcStep^[8] x = crcStep^[8] (x % 256) ^^^ (x / 256) := by
  have h28 : (2 : Nat) ^ 8 = 256 := by norm_num
  have hsplit : x = (2 ^ 8 * (x / 256)) ^^^ (x % 256) := by
    rw [xor_disjoint_eq_add (by rw [h28]; omega : x % 256 < 2 ^ 8), h28]
    omega
  conv_lhs => rw [hsplit]
  rw [crcStep_iter_xor, crcStep_iter_pow_mul, Nat.xor_comm]

theorem xor_div_two_pow (k x y : Nat) :
    (x ^^^ y) / 2 ^ k = (x / 2 ^ k) ^^^ (y / 2 ^ k) := by
  induction k generalizing x y with
  | zero => simp
  | succ k ih =>
    have h2 : (2 : Nat) ^ (k + 1) = 2 ^ k * 2 := by ring
    rw [h2, ← Nat.div_div_eq_div_mul, ← Nat.div_div_eq_div_mul, ← Nat.div_div_eq_div_mul,
      ih, Nat.xor_div_two]

theorem crcTable_getD (n : Nat) (h : n < 256) : crcTable.getD n 0 = crcTableEntry n := by
  rw [crcTable, List.getD_eq_getElem?_getD, List.getElem?_map, List.getElem?_range h]
  rfl

/-- The table-driven byte update equals eight bit-serial steps on the
byte XORed into the state. -/
theorem crcByteStep_eq (crc b : Nat) (hb : b < 256) :
    crcByteStep crc b = crcStep^[8] (crc ^^^ b) := by
  rw [crcByteStep, crcTable_getD _ (Nat.mod_lt _ (by norm_num)), crcTableEntry,
    crcStep_iter_eight (crc ^^^ b)]
  congr 1
  have h256 : (256 : Nat) = 2 ^ 8 := by norm_num
  rw [h256, xor_div_two_pow, Nat.div_eq_of_lt (by rw [← h256]; omega : b < 2 ^ 8),
    Nat.xor_zero]

theorem foldl_crcByteStep_eq (data : List Nat) (h : ∀ b ∈ data, b < 256) (init : Nat) :
    data.foldl crcByteStep init =
      data.foldl (fun crc b => crcStep^[8] (crc ^^^ b)) init := by
  induction data generalizing init with
  | nil => rfl
  | cons b rest ih =>
    rw [List.foldl_cons, List.foldl_cons, crcByteStep_eq _ _ (h b (List.mem_cons_self b rest))]
    exact ih (fun x hx => h x (List.mem_cons_of_mem _ hx)) _

theorem crc32_eq_standard (data : List Nat) (h : ∀ b ∈ data, b < 256) :
    crc32 data = crc32_standard data := by
  rw [crc32, crc32_standard, foldl_crcByteStep_eq data h]

/-- C5: the `crc32` function is total over all byte sequences and
matches the standard reflected CRC-32 (polynomial `0xEDB88320`, initial
value `0xFFFFFFFF`, final XOR `0xFFFFFFFF`): it agrees with the rolled
standard algorithm on every byte sequence, returns `0` on the empty
sequence (the initial/final XOR identity), and returns `0xCBF43926` on
the ASCII bytes of "123456789". -/
theorem C5_crc32_matches_standard :
    (∀ data : List Nat, (∀ b ∈ data, b < 256) → crc32 data = crc32_standard data) ∧
    crc32 [] = 0 ∧
    crc32 [0x31, 0x32, 0x33, 0x34, 0x35, 0x36, 0x37, 0x38, 0x39] = 0xCBF43926 := by
  refine ⟨crc32_eq_standard, by decide, ?_⟩
  set_option maxRecDepth 10000 in decide

/-- Witness for C5 at concrete inputs. -/
theorem C5_crc32_matches_standard_witness :
    crc32 [0x31, 0x32] = crc32_standard [0x31, 0x32] ∧ crc32 [] = 0 :=
  ⟨C5_crc32_matches_standard.1 [0x31, 0x32] (by decide),
   C5_crc32_matches_standard.2.1⟩

/-! ## Amplitude extraction: series length and bucket layout -/

/-- C1: for every audio input and positive target sample count `N` the
amplitude extraction returns a series of length exactly `N`: the bucket
loop pushes exactly `N` peaks, every successful outcome of
`extractAmplitudesFromRaw` has length `N`, and the fallback also
produces exactly `N` values. -/
theorem C1_extractor_length (rand : Nat → ℚ) (samples : List Int) (N : Nat)
    (h : 0 < N) :
    (generateFallbackAmplitudes rand N).length = N ∧
    (bucketPeaks samples N).length = N ∧
    ∀ outcome : Except String (List Int), ∀ amps : List ℚ,
      extractAmplitudesFromRaw rand outcome N = Except.ok amps → amps.length = N := by
  refine ⟨by simp [generateFallbackAmplitudes], by simp [bucketPeaks], ?_⟩
  intro outcome amps hok
  match outcome with
  | Except.error e => simp [extractAmplitudesFromRaw] at hok
  | Except.ok samples' =>
    by_cases hs : samples'.length = 0 <;>
      simp only [extractAmplitudesFromRaw, hs, if_pos, if_neg, if_true, if_false,
        Except.ok.injEq, reduceIte] at hok <;>
      simp [← hok, generateFallbackAmplitudes, normalizeAmplitudes, bucketPeaks]

/-- Witness for C1 at a concrete input. -/
theorem C1_extractor_length_witness :
    (generateFallbackAmplitudes (fun _ => 1 / 2) 3).length = 3 ∧
    (bucketPeaks [5, -7] 3).length = 3 ∧
    ∀ outcome : Except String (List Int), ∀ amps : List ℚ,
      extractAmplitudesFromRaw (fun _ => 1 / 2) outcome 3 = Except.ok amps →
        amps.length = 3 :=
  C1_extractor_length (fun _ => 1 / 2) [5, -7] 3 (by decide)

unseal Rat.mul Rat.inv in
/-- C2 as stated is false: the trailing remainder samples (past
`N * floor(totalSamples / N)`) are dropped, not included in the last
bucket. For `samples = [0, 0, 0, 0, 16384]` and `N = 2` the bucket size
is 2, the code's buckets are `[0,2)` and `[2,4)` with peaks `[0, 0]`,
while the claimed partition puts index 4 into the last bucket, giving
`[0, 1/2]`. -/
theorem C2_counterexample :
    ¬ bucketPeaks [0, 0, 0, 0, 16384] 2 = bucketPeaksSpec [0, 0, 0, 0, 16384] 2 := by
  decide

theorem list_slice_eq (l : List Int) (start n : Nat) (h : start + n ≤ l.length) :
    ((List.range n).map fun k => l.getD (start + k) 0) = (l.drop start).take n := by
  apply List.ext_getElem
  · simp
    omega
  · intro i h1 h2
    simp only [List.length_map, List.length_range, List.length_take,
      List.length_drop] at h1 h2
    simp only [List.getElem_map, List.getElem_range, List.getElem_take, List.getElem_drop]
    rw [List.getD_eq_getElem?_getD, List.getElem?_eq_getElem (by omega : start + i < l.length)]
    rfl

/-- C2 amended: when decoding succeeds with at least one PCM sample,
the decoded samples are partitioned into `N` contiguous buckets of size
`floor(totalSamples / N)`, bucket `i` being the slice starting at
`i * floor(totalSamples / N)`; the trailing remainder samples (those
past `N * floor(totalSamples / N)`) are dropped and belong to no
bucket; each bucket's value is the peak of `|sample| / 32768` over that
bucket. -/
theorem C2_buckets_drop_remainder (samples : List Int) (N : Nat) (h : 0 < N) :
    bucketPeaks samples N = bucketPeaksDropSpec samples N := by
  unfold bucketPeaks bucketPeaksDropSpec
  apply List.map_congr_left
  intro i hi
  rw [List.mem_range] at hi
  set spp := samples.length / N with hspp
  have hNs : N * spp ≤ samples.length := by
    rw [hspp, Nat.mul_comm]
    exact Nat.div_mul_le_self _ _
  have hle : (i + 1) * spp ≤ N * spp :=
    Nat.mul_le_mul_right _ (by omega)
  have hbound : i * spp + spp ≤ samples.length := by
    have h1 : i * spp + spp = (i + 1) * spp := by ring
    rw [h1]
    exact le_trans hle hNs
  have hmin : min (i * spp + spp) samples.length = i * spp + spp := min_eq_left hbound
  have hsub : i * spp + spp - i * spp = spp := Nat.add_sub_cancel_left _ _
  dsimp only
  rw [hmin, hsub, list_slice_eq _ _ _ hbound]

unseal Rat.mul Rat.inv in
/-- Witness for C2 (amended) at the counterexample input. -/
theorem C2_buckets_drop_remainder_witness :
    bucketPeaks [0, 0, 0, 0, 16384] 2 = bucketPeaksDropSpec [0, 0, 0, 0, 16384] 2 :=
  C2_buckets_drop_remainder [0, 0, 0, 0, 16384] 2 (by decide)

/-! ## Rasterization: buffer size, bar layout and write bounds -/

theorem length_render_foldl (writes : List Nat) (init : List Nat) :
    (writes.foldl
      (fun buf pi =>
        ((((buf.set pi 233).set (pi + 1) 69).set (pi + 2) 96).set (pi + 3) 255))
      init).length = init.length := by
  induction writes generalizing init with
  | nil => rfl
  | cons w ws ih => rw [List.foldl_cons, ih]; simp

set_option maxRecDepth 100000 in
unseal Rat.mul Rat.inv Rat.add Rat.sub in
/-- C3 as stated is false: the rasterizer's pixel grid has width
`actualWidth = N * (barWidth + 1)`, not `W`, and when
`floor(W / N) ≤ 1` the clamped bar width 1 makes `actualWidth = 2N`,
which can exceed `W`. For a series of length 5 and `W = 9`:
`barWidth = max(1, 1 - 1) = 1`, `actualWidth = 10`, so the buffer holds
`10 × 10` pixels (not `9 × 10`) and the drawn width 10 exceeds 9. -/
theorem C3_counterexample :
    ¬ ((renderPixels (List.replicate 5 (1 : ℚ)) 9 10).length = 9 * 10 * 4 ∧
       actualWidthOf 9 (List.replicate 5 (1 : ℚ)).length ≤ 9) := by
  decide

/-- C3 amended: for every amplitude series and positive dimensions `W`
and `H`, the rasterizer produces a pixel grid of size `(N * (barWidth +
1)) × H` (bar width `max(1, floor(W / N) − 1)`, 1-pixel gap), and
whenever `floor(W / N) ≥ 2` (so the `max(1, ·)` clamp is inactive) the
actual drawn width `N * floor(W / N)` is at most `W`. -/
theorem C3_grid_actual_width (amps : List ℚ) (w h : Nat) (hw : 0 < w) (hh : 0 < h) :
    (renderPixels amps w h).length = actualWidthOf w amps.length * h * 4 ∧
    (2 ≤ w / amps.length → actualWidthOf w amps.length ≤ w) := by
  constructor
  · rw [renderPixels, length_render_foldl]
    simp
  · intro h2
    rw [actualWidthOf, barWidthOf]
    have hmax : max 1 (w / amps.length - 1) = w / amps.length - 1 := by omega
    rw [hmax]
    have h3 : w / amps.length - 1 + 1 = w / amps.length := by omega
    rw [h3, Nat.mul_comm]
    exact Nat.div_mul_le_self _ _

unseal Rat.mul Rat.inv Rat.add Rat.sub in
/-- Witness for C3 (amended) at a concrete input where the bound is
active. -/
theorem C3_grid_actual_width_witness :
    (renderPixels [(1 : ℚ), 1, 1] 9 10).length =
      actualWidthOf 9 [(1 : ℚ), 1, 1].length * 10 * 4 ∧
    (2 ≤ 9 / [(1 : ℚ), 1, 1].length → actualWidthOf 9 [(1 : ℚ), 1, 1].length ≤ 9) :=
  C3_grid_actual_width [(1 : ℚ), 1, 1] 9 10 (by decide) (by decide)

/-- C10: for every amplitude list (including values outside `[0, 1]`)
and positive width and height, every pixel write of the rasterizer is
within the allocated buffer of size `actualWidth * height * 4`: the row
index is guarded to `[0, height)` by line 128 and every written base
index satisfies `pixelIndex + 3 < actualWidth * height * 4` because the
column `x + bx` is strictly below `actualWidth = N * (barWidth + 1)`. -/
theorem C10_writes_in_bounds (amps : List ℚ) (width height : Nat)
    (hw : 0 < width) (hh : 0 < height) :
    ∀ pi ∈ barWrites amps width height,
      pi + 3 < actualWidthOf width amps.length * height * 4 := by
  intro pi hpi
  unfold barWrites at hpi
  simp only [List.mem_flatMap, List.mem_map, List.mem_range] at hpi
  obtain ⟨i, hi, dy, ⟨t, ht, hteq⟩, hmem⟩ := hpi
  set n := amps.length with hn
  set bw := barWidthOf width n with hbw
  set aw := n * (bw + 1) with haw
  by_cases hc : (0 ≤ ((height / 2 : Nat) : Int) + dy ∧
      ((height / 2 : Nat) : Int) + dy < (height : Int))
  · rw [if_pos hc] at hmem
    simp only [List.mem_map, List.mem_range] at hmem
    obtain ⟨bx, hbx, hpieq⟩ := hmem
    set y : Int := ((height / 2 : Nat) : Int) + dy with hy
    have hyn : y.toNat < height := by omega
    have hcol : i * (bw + 1) + bx < aw := by
      have h1 : i * (bw + 1) + bx < (i + 1) * (bw + 1) := by
        have : (i + 1) * (bw + 1) = i * (bw + 1) + (bw + 1) := by ring
        omega
      have h2 : (i + 1) * (bw + 1) ≤ n * (bw + 1) :=
        Nat.mul_le_mul_right _ (by omega)
      omega
    have hrow : y.toNat * aw + (i * (bw + 1) + bx) < height * aw := by
      have h1 : y.toNat * aw + (i * (bw + 1) + bx) < (y.toNat + 1) * aw := by
        have : (y.toNat + 1) * aw = y.toNat * aw + aw := by ring
        omega
      have h2 : (y.toNat + 1) * aw ≤ height * aw :=
        Nat.mul_le_mul_right _ (by omega)
      omega
    have hfinal : height * aw = actualWidthOf width n * height := by
      rw [actualWidthOf, ← haw, Nat.mul_comm]
    rw [← hpieq] at *
    omega
  · rw [if_neg hc] at hmem
    simp at hmem

unseal Rat.mul Rat.inv Rat.add Rat.sub in
/-- Witness for C10 at a concrete input: the single write emitted for
a one-bar render into a 1 by 1 canvas is in bounds. -/
theorem C10_writes_in_bounds_witness :
    0 + 3 < actualWidthOf 1 [(1 : ℚ)].length * 1 * 4 :=
  C10_writes_in_bounds [(1 : ℚ)] 1 1 (by decide) (by decide) 0 (by decide)

set_option maxRecDepth 100000 in
unseal Rat.mul Rat.inv Rat.add Rat.sub in
/-- C6: for the amplitude series `[1.0, 0.5, 0.0]` with width 9 and
height 10 the rasterizer computes bar heights `max(2, floor(a * 6)) =
[6, 3, 2]` (the 0-amplitude bar clamped to the minimum 2), bar width 2,
actual width 9, and draws each bar symmetrically about the center row
`floor(10 / 2) = 5` (half-extents `[3, 1, 1]`) with a 1-pixel gap
column between bars. -/
theorem C6_scenario_9x10 :
    (([(1 : ℚ), 1 / 2, 0]).map fun a => barHeightOf a 10) = [6, 3, 2] ∧
    (([(1 : ℚ), 1 / 2, 0]).map fun a => halfHeightOf a 10) = [3, 1, 1] ∧
    barWidthOf 9 3 = 2 ∧ actualWidthOf 9 3 = 9 ∧
    renderPixels [(1 : ℚ), 1 / 2, 0] 9 10 = c6expected := by
  decide


/-! ## PNG encoding: exact byte layout -/

theorem ihdrData_eq (w h : Nat) :
    ihdrData w h = be4 w ++ be4 h ++ [8, 6, 0, 0, 0] := rfl

theorem createPngChunk_eq (t d : List Nat) :
    createPngChunk t d = chunkSpec t d := rfl

/-- C4: for every pixel grid the encoded image is exactly the 8-byte
signature `89 50 4E 47 0D 0A 1A 0A`, an IHDR chunk whose 13-byte
payload is width (4 bytes big-endian), height (4 bytes big-endian), bit
depth 8, color type 6 and zero compression/filter/interlace, an IDAT
chunk whose payload is the compression of the scanlines each prefixed
by a zero filter byte, and a zero-payload IEND chunk; every chunk is
framed as 4-byte big-endian payload length, the 4 ASCII type bytes, the
payload, then the 4-byte big-endian CRC-32 of type plus payload. The
compressor (`deflateSync` at level 9) is the black-box parameter
`deflate`. -/
theorem C4_png_layout (deflate : List Nat → List Nat) (pixels : List Nat) (w h : Nat) :
    encodePng deflate pixels w h =
      [0x89, 0x50, 0x4e, 0x47, 0x0d, 0x0a, 0x1a, 0x0a] ++
      chunkSpec typeIHDR (be4 w ++ be4 h ++ [8, 6, 0, 0, 0]) ++
      chunkSpec typeIDAT
        (deflate ((List.range h).flatMap fun y => 0 :: pngRow pixels w y)) ++
      chunkSpec typeIEND [] := by
  rw [encodePng, ihdrData_eq, createPngChunk_eq, createPngChunk_eq, createPngChunk_eq,
    pngRawData, pngSignature]


/-! ## The job orchestrator: validation, fallback, cleanup -/

/-- C8: a job request whose subject identifier or source asset key is
missing (or whose asset key is the empty string) is rejected
immediately: the only step performed is the error log — no download
occurs and no temporary file is created. -/
theorem C8_invalid_input_rejected (env : JobEnv) (data : GenerateWaveformData)
    (h : (falsyPostId data.postId || falsyAudioKey data.audioKey) = true) :
    run env data = (Except.ok (), [JobStep.logError]) ∧
    (∀ k, JobStep.download k ∉ (run env data).2) ∧
    JobStep.writeTemp ∉ (run env data).2 := by
  have hrun : run env data = (Except.ok (), [JobStep.logError]) := by
    simp [run, h]
  refine ⟨hrun, ?_, ?_⟩ <;> simp [hrun]

/-- Witness for C8 with an empty-string asset key. -/
theorem C8_invalid_input_rejected_witness :
    run envC8 dataC8 = (Except.ok (), [JobStep.logError]) ∧
    (∀ k, JobStep.download k ∉ (run envC8 dataC8).2) ∧
    JobStep.writeTemp ∉ (run envC8 dataC8).2 :=
  C8_invalid_input_rejected envC8 dataC8 (by rfl)

/-- C9: for every job that passes input validation, on every exit path
(success, extraction fallback, download failure, upload failure,
persistence failure — i.e. for every oracle) the removal of the
temporary file is attempted (`cleanup` appears in the step trace), and
an error raised by the removal is swallowed: the job's result and trace
do not depend on whether the `rm` call would throw. -/
theorem C9_cleanup_always_attempted (env : JobEnv) (data : GenerateWaveformData)
    (b : Bool)
    (h : (falsyPostId data.postId || falsyAudioKey data.audioKey) = false) :
    JobStep.cleanup ∈ (run env data).2 ∧
    run { env with cleanupFails := b } data = run env data := by
  constructor
  · rcases hD : env.downloadResult with e | buf
    · simp [run, h, hD]
    · rcases hU : env.uploadResult with e | url
      · simp [run, h, hD, hU]
      · rcases hP : env.persistResult with e | u
        · simp [run, h, hD, hU, hP]
        · simp [run, h, hD, hU, hP]
  · rfl

/-- Witness for C9 at a concrete oracle whose cleanup call would
throw. -/
theorem C9_cleanup_always_attempted_witness :
    JobStep.cleanup ∈ (run envC9 dataC9).2 ∧
    run { envC9 with cleanupFails := true } dataC9 = run envC9 dataC9 :=
  C9_cleanup_always_attempted envC9 dataC9 true (by rfl)

/-- C7: if the decode process errors, exits non-zero, or yields zero
decoded samples, the job uses `N = 150` pseudo-random fallback
amplitudes, each within `[0.3, 0.7]` (given the `Math.random` contract
`0 ≤ r < 1`); the failure never propagates (the job result is success
when upload and persistence succeed — in the process-failure case it is
merely logged as a warning), and the job still renders, encodes and
uploads the image of the fallback amplitudes. -/
theorem C7_decode_failure_fallback (env : JobEnv) (data : GenerateWaveformData)
    (e : String)
    (hv : (falsyPostId data.postId || falsyAudioKey data.audioKey) = false)
    (hdl : ∃ buf, env.downloadResult = Except.ok buf)
    (hdec : env.decodeOutcome = Except.error e ∨ env.decodeOutcome = Except.ok [])
    (hup : ∃ url, env.uploadResult = Except.ok url)
    (hp : env.persistResult = Except.ok ())
    (hr : ∀ i, 0 ≤ env.rand i ∧ env.rand i < 1) :
    (generateFallbackAmplitudes env.rand WAVEFORM_SAMPLES).length = 150 ∧
    (∀ a ∈ generateFallbackAmplitudes env.rand WAVEFORM_SAMPLES,
      3 / 10 ≤ a ∧ a ≤ 7 / 10) ∧
    (run env data).1 = Except.ok () ∧
    JobStep.upload ("waveforms/" ++ toString (data.postId.getD 0) ++ ".png")
      (renderWaveformToPng env.deflate
        (generateFallbackAmplitudes env.rand WAVEFORM_SAMPLES)
        WAVEFORM_WIDTH WAVEFORM_HEIGHT) ∈ (run env data).2 ∧
    (env.decodeOutcome = Except.error e → JobStep.logWarnFallback ∈ (run env data).2) := by
  obtain ⟨buf, hbuf⟩ := hdl
  obtain ⟨url, hurl⟩ := hup
  have hlen : (generateFallbackAmplitudes env.rand WAVEFORM_SAMPLES).length = 150 := by
    simp [generateFallbackAmplitudes, WAVEFORM_SAMPLES]
  have hrange : ∀ a ∈ generateFallbackAmplitudes env.rand WAVEFORM_SAMPLES,
      3 / 10 ≤ a ∧ a ≤ 7 / 10 := by
    intro a ha
    simp only [generateFallbackAmplitudes, List.mem_map, List.mem_range] at ha
    obtain ⟨i, hi, rfl⟩ := ha
    obtain ⟨h0, h1⟩ := hr i
    have hm0 : 0 ≤ env.rand i * (4 / 10) := mul_nonneg h0 (by norm_num)
    have hm1 : env.rand i * (4 / 10) ≤ 1 * (4 / 10) :=
      mul_le_mul_of_nonneg_right (le_of_lt h1) (by norm_num)
    constructor <;> linarith
  rcases hdec with hd | hd
  · have hext : extractAmplitudesFromRaw env.rand env.decodeOutcome WAVEFORM_SAMPLES =
        Except.error e := by simp [extractAmplitudesFromRaw, hd]
    refine ⟨hlen, hrange, ?_, ?_, ?_⟩ <;>
      simp [run, hv, hbuf, hurl, hp, hext, List.mem_append]
  · have hext : extractAmplitudesFromRaw env.rand env.decodeOutcome WAVEFORM_SAMPLES =
        Except.ok (generateFallbackAmplitudes env.rand WAVEFORM_SAMPLES) := by
      simp [extractAmplitudesFromRaw, hd]
    refine ⟨hlen, hrange, ?_, ?_, ?_⟩
    · simp [run, hv, hbuf, hurl, hp, hext]
    · simp [run, hv, hbuf, hurl, hp, hext, List.mem_append]
    · intro hcon
      rw [hd] at hcon
      simp at hcon

/-- Witness for C7 at a concrete oracle whose decode process fails. -/
theorem C7_decode_failure_fallback_witness :
    (generateFallbackAmplitudes envC7.rand WAVEFORM_SAMPLES).length = 150 ∧
    (∀ a ∈ generateFallbackAmplitudes envC7.rand WAVEFORM_SAMPLES,
      3 / 10 ≤ a ∧ a ≤ 7 / 10) ∧
    (run envC7 dataC7).1 = Except.ok () ∧
    JobStep.upload ("waveforms/" ++ toString (dataC7.postId.getD 0) ++ ".png")
      (renderWaveformToPng envC7.deflate
        (generateFallbackAmplitudes envC7.rand WAVEFORM_SAMPLES)
        WAVEFORM_WIDTH WAVEFORM_HEIGHT) ∈ (run envC7 dataC7).2 ∧
    (envC7.decodeOutcome = Except.error ("decode failed") →
      JobStep.logWarnFallback ∈ (run envC7 dataC7).2) :=
  C7_decode_failure_fallback envC7 dataC7 ("decode failed") (by rfl)
    ⟨[], rfl⟩ (Or.inl rfl) ⟨"https://cdn.example/waveforms/7.png", rfl⟩ rfl
    (fun _ => by norm_num [envC7])

end Waveform
